import Mathlib

/-!
Verification development for the alerting engine of the
vaultize-analytics-dashboard repository.

The Python sources under `analytics/alerting/app` are shallowly embedded:
pure computations become Lean functions, the mutable `AlertStateRecord`
becomes explicit state passing, Python timestamps (`datetime`, with
`total_seconds` on differences) are modelled as rationals counting seconds,
Python `dict`s appearing as JSON payloads are modelled as association
lists, and fallible code returns `Except`.
-/

namespace Vaultize

/-! ## JSON values

Models the Python `dict`/`list`/scalar payloads flowing through the engine
(OpenSearch responses, query bodies, webhook bodies, rule files).  Numbers
are modelled as rationals; numeric-string coercions (`float("1.5")`) are
not modelled, the payloads of interest carry genuine numbers.
-/

inductive Json where
  | null
  | bool (b : Bool)
  | num (q : Rat)
  | str (s : String)
  | arr (items : List Json)
  | obj (fields : List (String × Json))

/-- First-match association-list lookup; Python dict keys are unique, so
this models `d[k]` / `k in d`. -/
def lookupField (fields : List (String × Json)) (k : String) : Option Json :=
  (fields.find? (fun p => p.1 = k)).map (fun p => p.2)

/-! ## Alert rule model (`app/models/alert_rule.py`) -/

structure AlertSchedule where
  interval : String
deriving Repr, DecidableEq

structure AlertQueryTimeRange where
  from_ : String
  to_ : String
deriving Repr, DecidableEq

structure AlertQuery where
  index : List String
  time_field : String := "@timestamp"
  time_range : AlertQueryTimeRange
  filter : Json
  aggregation : Option Json := none

structure AlertCondition where
  type : String := "threshold"
  operator : String
  value : Rat
  aggregation_field : Option String := none
deriving Repr, DecidableEq

structure WebhookConfig where
  url : String
  method : String := "POST"
  headers : List (String × String) := [("Content-Type", "application/json")]
  body : Json := Json.null

structure AlertAction where
  type : String := "webhook"
  name : String
  webhook : WebhookConfig

structure AlertThrottle where
  value : Int
  unit : String
deriving Repr, DecidableEq

structure AlertMetadata where
  severity : String
  category : String
  owner : String
  runbook : Option String := none
  created_by : Option String := none
  created_date : Option String := none
  tags : List String := []
deriving Repr, DecidableEq

structure AlertRule where
  name : String
  description : String
  enabled : Bool := true
  schedule : AlertSchedule
  query : AlertQuery
  condition : AlertCondition
  actions : List AlertAction
  throttle : AlertThrottle
  metadata : AlertMetadata
  file_path : Option String := none

/-! ## Alert state model (`app/models/alert_state.py`)

Timestamps are rationals (seconds); `none` models a Python `None`. -/

inductive AlertState where
  | ok
  | firing
  | resolved
deriving Repr, DecidableEq

structure AlertStateRecord where
  rule_name : String
  state : AlertState := AlertState.ok
  last_checked : Option Rat := none
  last_fired : Option Rat := none
  last_resolved : Option Rat := none
  last_notified : Option Rat := none
  consecutive_fires : Int := 0
  current_value : Option Rat := none
  threshold : Rat := 0
  message : Option String := none
deriving Repr, DecidableEq

structure StateTransition where
  previous_state : AlertState
  new_state : AlertState
  changed : Bool
  should_notify : Bool
deriving Repr, DecidableEq

/-! ## State manager (`app/services/state_manager.py`)

`StateManager.get_state` defaults an absent record; `update_state` mutates
the record in place and persists it, which the embedding renders as a pure
function from the pre-record to the post-record plus the returned
`StateTransition`.  Both `datetime.now` calls made during one update (one
in `update_state`, one in `should_notify`) are modelled as the same
instant `now`.  Persistence (`_persist_state`) only mirrors the in-memory
record to OpenSearch and never changes it, so it has no footprint here.
-/

/-- `StateManager.get_state` on a rule with no record yet: the freshly
created default record. -/
def freshStateRecord (rule_name : String) : AlertStateRecord :=
  { rule_name := rule_name }

/-- `StateManager._parse_throttle_seconds`: `multipliers.get(unit, 60)`
with multipliers seconds→1, minutes→60, hours→3600. -/
def parse_throttle_seconds (throttle : AlertThrottle) : Int :=
  throttle.value *
    (if throttle.unit = "seconds" then 1
     else if throttle.unit = "minutes" then 60
     else if throttle.unit = "hours" then 3600
     else 60)

/-- `StateManager.should_notify`: `True` when `last_notified` is `None`,
otherwise compares elapsed seconds with the throttle window. -/
def should_notify_check (rule : AlertRule) (record : AlertStateRecord) (now : Rat) : Bool :=
  match record.last_notified with
  | none => true
  | some t0 =>
      let throttle_seconds := parse_throttle_seconds rule.throttle
      decide (now - t0 ≥ (throttle_seconds : Rat))

/-- `StateManager.update_state`: returns the updated record together with
the `StateTransition` the Python method returns. -/
def update_state (rule : AlertRule) (condition_met : Bool) (current_value : Rat)
    (now : Rat) (record0 : AlertStateRecord) : AlertStateRecord × StateTransition :=
  let previous_state := record0.state
  let record1 := { record0 with
    last_checked := some now
    current_value := some current_value
    threshold := rule.condition.value }
  let step : AlertStateRecord × Bool :=
    if condition_met then
      if previous_state = AlertState.ok ∨ previous_state = AlertState.resolved then
        ({ record1 with
            state := AlertState.firing
            last_fired := some now
            consecutive_fires := 1 }, true)
      else
        ({ record1 with consecutive_fires := record1.consecutive_fires + 1 },
         should_notify_check rule record1 now)
    else
      if previous_state = AlertState.firing then
        ({ record1 with
            state := AlertState.resolved
            last_resolved := some now
            consecutive_fires := 0 }, true)
      else if previous_state = AlertState.resolved then
        ({ record1 with state := AlertState.ok, consecutive_fires := 0 }, false)
      else
        (record1, false)
  let record2 := step.1
  let sn := step.2
  let new_state := record2.state
  let record3 := if sn then { record2 with last_notified := some now } else record2
  (record3,
   { previous_state := previous_state
     new_state := new_state
     changed := decide (previous_state ≠ new_state)
     should_notify := sn })

/-! ## Sample data for witnesses -/

/-- A concrete rule shaped like `configs/alert-rules` examples, used to
instantiate hypotheses of the proved theorems. -/
def sampleRule : AlertRule :=
  { name := "high-error-rate"
    description := "HTTP 5xx rate too high"
    schedule := { interval := "5m" }
    query := { index := ["logs-*"]
               time_range := { from_ := "now-5m", to_ := "now" }
               filter := Json.obj [("term", Json.obj [("level", Json.str "error")])] }
    condition := { operator := "gt", value := 100 }
    actions := [{ name := "ops-webhook", webhook := { url := "https://hooks.example/alert" } }]
    throttle := { value := 15, unit := "minutes" }
    metadata := { severity := "critical", category := "prod", owner := "payments" } }

/-- A record sitting in FIRING with a known notification timestamp. -/
def firingRecord (t0 : Rat) : AlertStateRecord :=
  { rule_name := "high-error-rate"
    state := AlertState.firing
    last_fired := some 0
    last_notified := some t0
    consecutive_fires := 1 }

/-! ## Claim theorems: state manager -/

/-- C1: every `StateManager.update_state` call follows exactly the §4.4
transition table — OK/RESOLVED + met goes to FIRING with `last_fired = now`,
`consecutive_fires = 1` and a forced notification; FIRING + met stays
FIRING incrementing `consecutive_fires`; FIRING + not-met resolves with
`last_resolved = now`, `consecutive_fires = 0` and a notification;
RESOLVED + not-met returns to OK silently; OK + not-met stays OK silently;
the new state is a function of the previous state and `condition_met`
alone, so no other transition is possible; and every call sets
`last_checked = now` and refreshes `current_value` and `threshold`. -/
theorem update_state_transition_table
    (rule : AlertRule) (condition_met : Bool) (v now : Rat) (r0 : AlertStateRecord) :
    ((update_state rule condition_met v now r0).1.last_checked = some now ∧
     (update_state rule condition_met v now r0).1.current_value = some v ∧
     (update_state rule condition_met v now r0).1.threshold = rule.condition.value) ∧
    ((update_state rule condition_met v now r0).2.previous_state = r0.state ∧
     (update_state rule condition_met v now r0).2.new_state =
       (if condition_met then AlertState.firing
        else if r0.state = AlertState.firing then AlertState.resolved
        else AlertState.ok) ∧
     (update_state rule condition_met v now r0).1.state =
       (update_state rule condition_met v now r0).2.new_state) ∧
    ((r0.state = AlertState.ok ∨ r0.state = AlertState.resolved) → condition_met = true →
       (update_state rule condition_met v now r0).1.state = AlertState.firing ∧
       (update_state rule condition_met v now r0).1.last_fired = some now ∧
       (update_state rule condition_met v now r0).1.consecutive_fires = 1 ∧
       (update_state rule condition_met v now r0).2.should_notify = true) ∧
    (r0.state = AlertState.firing → condition_met = true →
       (update_state rule condition_met v now r0).1.state = AlertState.firing ∧
       (update_state rule condition_met v now r0).1.consecutive_fires =
         r0.consecutive_fires + 1) ∧
    (r0.state = AlertState.firing → condition_met = false →
       (update_state rule condition_met v now r0).1.state = AlertState.resolved ∧
       (update_state rule condition_met v now r0).1.last_resolved = some now ∧
       (update_state rule condition_met v now r0).1.consecutive_fires = 0 ∧
       (update_state rule condition_met v now r0).2.should_notify = true) ∧
    (r0.state = AlertState.resolved → condition_met = false →
       (update_state rule condition_met v now r0).1.state = AlertState.ok ∧
       (update_state rule condition_met v now r0).2.should_notify = false) ∧
    (r0.state = AlertState.ok → condition_met = false →
       (update_state rule condition_met v now r0).1.state = AlertState.ok ∧
       (update_state rule condition_met v now r0).2.should_notify = false) := by
  cases condition_met <;> rcases hs : r0.state with _ | _ | _ <;>
    simp [update_state, hs] <;> split <;> simp

/-- Witness for C1: concrete instantiations covering the fire, sustain,
and resolve rows of the table. -/
theorem update_state_transition_table_witness :
    ((update_state sampleRule true 150 1000 (freshStateRecord "high-error-rate")).1.state
        = AlertState.firing ∧
     (update_state sampleRule true 150 1000 (freshStateRecord "high-error-rate")).2.should_notify
        = true) ∧
    (update_state sampleRule true 200 1060 (firingRecord 1000)).1.consecutive_fires = 2 ∧
    ((update_state sampleRule false 50 1120 (firingRecord 1000)).1.state
        = AlertState.resolved ∧
     (update_state sampleRule false 50 1120 (firingRecord 1000)).2.should_notify = true) := by
  have h1 := update_state_transition_table sampleRule true 150 1000
    (freshStateRecord "high-error-rate")
  have h2 := update_state_transition_table sampleRule true 200 1060 (firingRecord 1000)
  have h3 := update_state_transition_table sampleRule false 50 1120 (firingRecord 1000)
  refine ⟨⟨(h1.2.2.1 (Or.inl rfl) rfl).1, (h1.2.2.1 (Or.inl rfl) rfl).2.2.2⟩, ?_, ?_, ?_⟩
  · exact (h2.2.2.2.1 rfl rfl).2
  · exact (h3.2.2.2.2.1 rfl rfl).1
  · exact (h3.2.2.2.2.1 rfl rfl).2.2.2

/-- C2: for a record already FIRING with `last_notified = t₀`, a sustained
update notifies iff `now − t₀ ≥ throttle.value × m` with m = 1 for
"seconds", 60 for "minutes", 3600 for "hours" and 60 for any unknown
unit; and on every update whose transition says notify, `last_notified`
is set to `now` at admission time (the webhook outcome is not an input of
`update_state` at all). -/
theorem update_state_throttle_window
    (rule : AlertRule) (v now t0 : Rat) (r0 : AlertStateRecord)
    (hs : r0.state = AlertState.firing) (hn : r0.last_notified = some t0) :
    ((update_state rule true v now r0).2.should_notify = true ↔
      now - t0 ≥ (rule.throttle.value : Rat) *
        (if rule.throttle.unit = "seconds" then 1
         else if rule.throttle.unit = "minutes" then 60
         else if rule.throttle.unit = "hours" then 3600
         else 60)) ∧
    (∀ (rule2 : AlertRule) (cm : Bool) (v2 now2 : Rat) (r2 : AlertStateRecord),
      (update_state rule2 cm v2 now2 r2).2.should_notify = true →
      (update_state rule2 cm v2 now2 r2).1.last_notified = some now2) := by
  constructor
  · simp only [update_state, hs, should_notify_check, parse_throttle_seconds, hn]
    simp only [ge_iff_le, decide_eq_true_eq]
    constructor <;> intro h <;> (try push_cast at h ⊢) <;>
      split at h <;> (try split at h) <;> (try split at h) <;>
      simp_all <;> split <;> (try split) <;> (try split) <;> simp_all <;> linarith
  · intro rule2 cm v2 now2 r2 h
    cases cm <;> rcases hs2 : r2.state with _ | _ | _ <;>
      simp [update_state, hs2] at h ⊢ <;> simp [h]

/-- Witness for C2: sustained FIRING 60 seconds after notifying under a
15-minute throttle stays silenced (60 < 900), and a notifying update
stamps `last_notified`. -/
theorem update_state_throttle_window_witness :
    (update_state sampleRule true 200 1060 (firingRecord 1000)).2.should_notify = false ∧
    (update_state sampleRule true 200 2000 (firingRecord 1000)).1.last_notified = some 2000 := by
  have h := update_state_throttle_window sampleRule 200 1060 1000 (firingRecord 1000) rfl rfl
  have h3 := update_state_throttle_window sampleRule 200 2000 1000 (firingRecord 1000) rfl rfl
  constructor
  · rw [Bool.eq_false_iff]
    intro hb
    have h2 := h.1.mp hb
    norm_num [sampleRule, String.reduceEq] at h2
    rw [if_neg (by decide)] at h2
    norm_num at h2
  · refine h3.2 sampleRule true 200 2000 (firingRecord 1000) (h3.1.mpr ?_)
    norm_num [sampleRule, String.reduceEq]
    rw [if_neg (by decide)]
    norm_num

/-- The §3 StateRecord invariant: strictly positive `consecutive_fires`
exactly in state FIRING. -/
def stateInvariant (record : AlertStateRecord) : Prop :=
  record.consecutive_fires > 0 ↔ record.state = AlertState.firing

/-- C3: the invariant `consecutive_fires > 0 ⇔ state = FIRING` holds for
every freshly created record and is preserved by every
`StateManager.update_state` call, assuming the record additionally
carries a non-negative `consecutive_fires` before the call. -/
theorem update_state_preserves_invariant :
    (∀ name, stateInvariant (freshStateRecord name)) ∧
    (∀ (rule : AlertRule) (condition_met : Bool) (v now : Rat) (r0 : AlertStateRecord),
      stateInvariant r0 → r0.consecutive_fires ≥ 0 →
      stateInvariant (update_state rule condition_met v now r0).1) := by
  constructor
  · intro name
    simp [stateInvariant, freshStateRecord]
  · intro rule condition_met v now r0 hinv hnn
    rcases hs : r0.state with _ | _ | _ <;>
      cases condition_met <;>
        simp [stateInvariant, update_state, hs] at hinv ⊢ <;>
          first
            | omega
            | (split <;> simp <;> omega)

/-- Witness for C3: preservation at a concrete sustained-FIRING update. -/
theorem update_state_preserves_invariant_witness :
    stateInvariant (update_state sampleRule true 200 1060 (firingRecord 1000)).1 := by
  have h := update_state_preserves_invariant
  exact h.2 sampleRule true 200 1060 (firingRecord 1000)
    (by simp [stateInvariant, firingRecord]) (by simp [firingRecord])

/-- C10: a record restored into FIRING with `last_notified = None` is
notified unconditionally on a sustained-FIRING update — the throttle
comparison is skipped entirely when `last_notified` is null. -/
theorem firing_null_last_notified_always_notifies
    (rule : AlertRule) (v now : Rat) (r0 : AlertStateRecord)
    (hs : r0.state = AlertState.firing) (hn : r0.last_notified = none) :
    (update_state rule true v now r0).2.should_notify = true := by
  simp [update_state, hs, should_notify_check, hn]

/-- Witness for C10: a restored FIRING record with no recorded
notification notifies on the next sustained tick. -/
theorem firing_null_last_notified_always_notifies_witness :
    (update_state sampleRule true 200 1060
      { firingRecord 1000 with last_notified := none }).2.should_notify = true :=
  firing_null_last_notified_always_notifies sampleRule 200 1060
    { firingRecord 1000 with last_notified := none } rfl rfl

/-! ## Scheduler (`app/services/scheduler.py`)

`_parse_interval` matches `INTERVAL_PATTERN = ^(\d+)([smhd])$` and maps the
unit through `INTERVAL_UNITS`; on no match it raises `ValueError`, which
the embedding renders as `Except.error`.  `\d` is modelled as an ASCII
digit.  `start` loads the rules, then installs one job per enabled rule
with no try/except around `_schedule_rule`, so a raised `ValueError`
propagates and aborts the loop.
-/

/-- `int(...)` on the matched digit group. -/
def digitsToNat (cs : List Char) : Nat :=
  cs.foldl (fun acc c => acc * 10 + (c.toNat - 48)) 0

/-- `AlertScheduler._parse_interval`. -/
def parse_interval (interval_str : String) : Except String (String × Nat) :=
  let cs := interval_str.toList
  match cs.getLast? with
  | none => Except.error ("Invalid interval format: " ++ interval_str)
  | some u =>
    let digits := cs.dropLast
    if digits ≠ [] ∧ digits.all Char.isDigit then
      let value := digitsToNat digits
      if u = 's' then Except.ok ("seconds", value)
      else if u = 'm' then Except.ok ("minutes", value)
      else if u = 'h' then Except.ok ("hours", value)
      else if u = 'd' then Except.ok ("days", value)
      else Except.error ("Invalid interval format: " ++ interval_str)
    else Except.error ("Invalid interval format: " ++ interval_str)

/-- A job registered with APScheduler by `_schedule_rule`. -/
structure ScheduledJob where
  id : String
  job_name : String
  interval : String × Nat
deriving Repr, DecidableEq

/-- `AlertScheduler._schedule_rule`: parse the interval (exceptions
propagate) and add the periodic job. -/
def schedule_rule (rule : AlertRule) : Except String ScheduledJob :=
  match parse_interval rule.schedule.interval with
  | Except.ok kw => Except.ok
      { id := "alert_" ++ rule.name
        job_name := "Alert: " ++ rule.name
        interval := kw }
  | Except.error e => Except.error e

/-- The scheduling loop of `AlertScheduler.start` (and of `reload_rules`)
over the enabled rules: an exception from `_schedule_rule` aborts it. -/
def scheduler_start (rules : List AlertRule) : Except String (List ScheduledJob) :=
  (rules.filter (fun r => r.enabled)).foldlM
    (fun jobs r =>
      match schedule_rule r with
      | Except.ok j => Except.ok (jobs ++ [j])
      | Except.error e => Except.error e) []

/-- An enabled rule whose interval does not match `<N><s|m|h|d>`. -/
def badIntervalRule : AlertRule :=
  { sampleRule with name := "bad-interval", schedule := { interval := "5x" } }

/-- A second enabled, well-formed rule scheduled after the bad one. -/
def otherRule : AlertRule :=
  { sampleRule with name := "other-rule" }

/-- C4 (code-bug evidence): `_parse_interval` rejects the interval `"5x"`
by raising `ValueError`, and because `start` has no handler around
`_schedule_rule`, scheduler start over `[bad-interval, other-rule]`
propagates the exception instead of skipping the offending rule: it does
not complete normally and `other-rule` is never scheduled, although
scheduling `other-rule` alone succeeds. -/
theorem scheduler_start_aborts_on_invalid_interval :
    parse_interval "5x" = Except.error "Invalid interval format: 5x" ∧
    scheduler_start [badIntervalRule, otherRule] =
      Except.error "Invalid interval format: 5x" ∧
    scheduler_start [otherRule] =
      Except.ok [{ id := "alert_other-rule"
                   job_name := "Alert: other-rule"
                   interval := ("minutes", 5) }] :=
  ⟨rfl, rfl, rfl⟩

/-! ## Webhook notifier (`app/notifiers/webhook.py`)

`WebhookNotifier.send` loops `for attempt in range(1, retries + 1)`.  The
HTTP call's outcome per attempt is external input, modelled by a function
from the attempt number to either a response status or a transport error
(the raised exception).  The embedding returns the `NotificationResult`
together with the list of backoff sleeps performed, in order, so the
retry/backoff timing is observable.
-/

inductive AttemptOutcome where
  | response (status : Nat)
  | transportError (msg : String)
deriving Repr, DecidableEq

structure NotificationResult where
  success : Bool
  status_code : Option Nat := none
  error : Option String := none
  attempts : Nat := 1
deriving Repr, DecidableEq

/-- The `retries` default of `WebhookNotifier.__init__`. -/
def defaultRetries : Nat := 3

/-- The body of the retry loop; `fuel` is the number of attempts still
available (initially `retries`, attempt numbers starting at 1).  A status
below 400 returns success; a status of 400 or more falls through to the
next attempt with no sleep; an exception sleeps `2^(attempt-1)` seconds
when further attempts remain.  When the loop exhausts, the failure
summary carries `attempts = retries`. -/
def sendAux (retries : Nat) (outcomes : Nat → AttemptOutcome) (attempt fuel : Nat) :
    NotificationResult × List Nat :=
  match fuel with
  | 0 =>
      ({ success := false
         error := some ("Failed after " ++ toString retries ++ " attempts")
         attempts := retries }, [])
  | fuel' + 1 =>
    match outcomes attempt with
    | AttemptOutcome.response s =>
        if s < 400 then
          ({ success := true, status_code := some s, attempts := attempt }, [])
        else sendAux retries outcomes (attempt + 1) fuel'
    | AttemptOutcome.transportError _ =>
        let rest := sendAux retries outcomes (attempt + 1) fuel'
        if attempt < retries then (rest.1, 2 ^ (attempt - 1) :: rest.2) else rest

/-- `WebhookNotifier.send` for a given `retries` configuration: the
returned result and the performed backoff sleeps. -/
def send (retries : Nat) (outcomes : Nat → AttemptOutcome) :
    NotificationResult × List Nat :=
  sendAux retries outcomes 1 retries

/-- Spec-side: the first attempt in the window whose outcome is a
response with status < 400, with that status. -/
def firstSuccess (outcomes : Nat → AttemptOutcome) (attempt fuel : Nat) :
    Option (Nat × Nat) :=
  match fuel with
  | 0 => none
  | fuel' + 1 =>
    match outcomes attempt with
    | AttemptOutcome.response s =>
        if s < 400 then some (attempt, s) else firstSuccess outcomes (attempt + 1) fuel'
    | AttemptOutcome.transportError _ => firstSuccess outcomes (attempt + 1) fuel'

/-- Spec-side: the backoff sleeps demanded by the amended claim — one
sleep of `2^(attempt-1)` seconds after each failing transport-error
attempt before the first success, except after the final configured
attempt; none after an HTTP error response. -/
def transportBackoffs (retries : Nat) (outcomes : Nat → AttemptOutcome)
    (attempt fuel : Nat) : List Nat :=
  match fuel with
  | 0 => []
  | fuel' + 1 =>
    match outcomes attempt with
    | AttemptOutcome.response s =>
        if s < 400 then [] else transportBackoffs retries outcomes (attempt + 1) fuel'
    | AttemptOutcome.transportError _ =>
        if attempt < retries then
          2 ^ (attempt - 1) :: transportBackoffs retries outcomes (attempt + 1) fuel'
        else transportBackoffs retries outcomes (attempt + 1) fuel'

theorem sendAux_spec (retries : Nat) (outcomes : Nat → AttemptOutcome) :
    ∀ (fuel attempt : Nat),
      (sendAux retries outcomes attempt fuel).1 =
        (match firstSuccess outcomes attempt fuel with
         | some (a, s) => { success := true, status_code := some s, attempts := a }
         | none => { success := false
                     error := some ("Failed after " ++ toString retries ++ " attempts")
                     attempts := retries }) ∧
      (sendAux retries outcomes attempt fuel).2 =
        transportBackoffs retries outcomes attempt fuel := by
  intro fuel
  induction fuel with
  | zero =>
    intro attempt
    simp [sendAux, firstSuccess, transportBackoffs]
  | succ f ih =>
    intro attempt
    rcases ho : outcomes attempt with s | msg
    · by_cases hs : s < 400
      · simp [sendAux, firstSuccess, transportBackoffs, ho, hs]
      · simp [sendAux, firstSuccess, transportBackoffs, ho, hs, ih]
    · by_cases ha : attempt < retries
      · simp [sendAux, firstSuccess, transportBackoffs, ho, ha, ih]
      · simp [sendAux, firstSuccess, transportBackoffs, ho, ha, ih]

/-- Outcome trace for the C5 counterexample: attempt 1 returns HTTP 500,
every later attempt returns HTTP 200. -/
def http500then200 : Nat → AttemptOutcome :=
  fun attempt =>
    if attempt = 1 then AttemptOutcome.response 500 else AttemptOutcome.response 200

/-- C5 counterexample: with the default 3 retries, an HTTP 500 on
attempt 1 followed by an HTTP 200 on attempt 2 retries immediately — the
loop performs no backoff sleep at all, while the claim requires a
`2^(1-1) = 1` second sleep between consecutive attempts in the HTTP-error
failure case as well. -/
theorem send_no_backoff_after_http_error :
    (send 3 http500then200).1 =
      { success := true, status_code := some 200, attempts := 2 } ∧
    (send 3 http500then200).2 = [] ∧
    ([] : List Nat) ≠ [2 ^ (1 - 1)] :=
  ⟨rfl, rfl, by simp⟩

/-- C5 amended: a response with status < 400 returns success with that
status and the attempt count; any ≥ 400 status and any transport error
trigger a retry, up to `retries` total attempts (default 3); the
exponential backoff sleep of `2^(attempt-1)` seconds between consecutive
attempts is performed only after transport-error attempts — an HTTP error
status retries with no sleep; after exhaustion the result is
`success = false` with an error summary. -/
theorem send_retry_behavior (retries : Nat) (outcomes : Nat → AttemptOutcome) :
    ((send retries outcomes).1 =
      (match firstSuccess outcomes 1 retries with
       | some (a, s) => { success := true, status_code := some s, attempts := a }
       | none => { success := false
                   error := some ("Failed after " ++ toString retries ++ " attempts")
                   attempts := retries })) ∧
    (send retries outcomes).2 = transportBackoffs retries outcomes 1 retries ∧
    defaultRetries = 3 :=
  ⟨(sendAux_spec retries outcomes retries 1).1,
   (sendAux_spec retries outcomes retries 1).2, rfl⟩

/-! ## Query executor (`app/services/query_executor.py`)

Result extraction navigates the OpenSearch response dict.  Python
`d.get(k, default)` on a non-dict raises, which the embedding renders as
`Except.error`; `float(x)` is modelled on JSON numbers and booleans (the
extraction paths only ever see numbers). -/

/-- Python `s.split(".")` at the character level (non-empty separator,
single character): every `'.'` terminates a group, so `"a..b"` gives
`["a", "", "b"]` and `""` gives `[""]`. -/
def splitDotChars : List Char → List (List Char)
  | [] => [[]]
  | c :: rest =>
      let r := splitDotChars rest
      if c = '.' then [] :: r
      else
        match r with
        | [] => [[c]]
        | g :: gs => (c :: g) :: gs

/-- Python `agg_field.split(".")`. -/
def pySplitDot (s : String) : List String :=
  (splitDotChars s.toList).map (fun g => String.mk g)

/-- Python `".".join(parts)`. -/
def joinDots : List String → String
  | [] => ""
  | [s] => s
  | s :: rest => s ++ "." ++ joinDots rest

/-- Python `d.get(k, default)`. -/
def dictGet (j : Json) (k : String) (d : Json) : Except String Json :=
  match j with
  | Json.obj fields => Except.ok ((lookupField fields k).getD d)
  | _ => Except.error "AttributeError: get on non-dict"

/-- Python `float(x)` on the JSON values the extractors see. -/
def pyFloat : Json → Except String Rat
  | Json.num q => Except.ok q
  | Json.bool b => Except.ok (if b then 1 else 0)
  | _ => Except.error "TypeError: not a number"

/-- `QueryExecutor._extract_count_result`: `hits.total` either as the
object `{value, relation}` or as a bare number. -/
def extract_count_result (response : Json) : Except String Rat :=
  match dictGet response "hits" (Json.obj []) with
  | Except.error e => Except.error e
  | Except.ok hits =>
    match dictGet hits "total" (Json.obj []) with
    | Except.error e => Except.error e
    | Except.ok total =>
      match total with
      | Json.obj fields => pyFloat ((lookupField fields "value").getD (Json.num 0))
      | _ => pyFloat total

/-- The body of `QueryExecutor._extract_aggregation_result` once
`aggs = response.aggregations.alert_agg` is a dict: the `values` branch
only returns when the dotted field has at least two parts; otherwise
control falls through to the `value` branch, then to the warning
default 0.0. -/
def aggValueOf (fields : List (String × Json)) (agg_field : String) : Except String Rat :=
  let valuesStep : Option (Except String Rat) :=
    match lookupField fields "values" with
    | some valuesJ =>
        let parts := pySplitDot agg_field
        if parts.length ≥ 2 then
          let key := joinDots (parts.drop 1)
          some (match valuesJ with
                | Json.obj vfields => pyFloat ((lookupField vfields key).getD (Json.num 0))
                | _ => Except.error "AttributeError: get on non-dict")
        else none
    | none => none
  match valuesStep with
  | some r => r
  | none =>
      match lookupField fields "value" with
      | some v => pyFloat v
      | none => Except.ok 0

/-- `QueryExecutor._extract_aggregation_result`. -/
def extract_aggregation_result (response : Json) (agg_field : String) :
    Except String Rat :=
  match dictGet response "aggregations" (Json.obj []) with
  | Except.error e => Except.error e
  | Except.ok aggsTop =>
    match dictGet aggsTop "alert_agg" (Json.obj []) with
    | Except.error e => Except.error e
    | Except.ok aggs =>
      match aggs with
      | Json.obj fields => aggValueOf fields agg_field
      | _ => Except.error "TypeError: membership test on non-dict"

/-- C6 as the claim words it (refinement reference, written from the
claim, not from the source): whenever the `values` sub-object exists the
result comes from `values` keyed by all dot-separated parts of the field
after the first, regardless of how many parts there are. -/
def claimedAggExtract (response : Json) (agg_field : String) :
    Except String Rat :=
  match dictGet response "aggregations" (Json.obj []) with
  | Except.error e => Except.error e
  | Except.ok aggsTop =>
    match dictGet aggsTop "alert_agg" (Json.obj []) with
    | Except.error e => Except.error e
    | Except.ok aggs =>
      match aggs with
      | Json.obj fields =>
        match lookupField fields "values" with
        | some valuesJ =>
            let parts := pySplitDot agg_field
            let key := joinDots (parts.drop 1)
            (match valuesJ with
             | Json.obj vfields => pyFloat ((lookupField vfields key).getD (Json.num 0))
             | _ => Except.error "AttributeError: get on non-dict")
        | none =>
            match lookupField fields "value" with
            | some v => pyFloat v
            | none => Except.ok 0
      | _ => Except.error "TypeError: membership test on non-dict"

/-- A response whose `alert_agg` carries both a `values` sub-object and a
plain `value`, as a single-metric aggregation with an extra sibling key
would. -/
def aggResponseBoth : Json :=
  Json.obj [("aggregations", Json.obj
    [("alert_agg", Json.obj
      [("values", Json.obj [("95.0", Json.num 1250.5)]),
       ("value", Json.num 7)])])]

/-- C6 counterexample: with aggregation field `"avg"` (a single
dot-part), the code never consults the `values` sub-object — it requires
at least two parts — and returns `value = 7`, while the claim as stated
keys `values` by the empty joined remainder and yields 0. -/
theorem extract_aggregation_single_part_counterexample :
    extract_aggregation_result aggResponseBoth "avg" = Except.ok 7 ∧
    claimedAggExtract aggResponseBoth "avg" = Except.ok 0 ∧
    Except.ok (7 : Rat) ≠ (Except.ok 0 : Except String Rat) := by
  refine ⟨rfl, rfl, ?_⟩
  simp only [ne_eq, Except.ok.injEq]
  norm_num

/-- C6 amended: without an aggregation the value is the total hit count,
accepting `hits.total` as an object `{value, relation}` or a bare number,
coerced to float; with an aggregation, letting `v = aggregations.alert_agg`,
if `v` contains a `values` sub-object *and* the aggregation field has at
least two dot-separated parts, the result is `float(values.get(k, 0))`
where `k` joins the parts after the first; otherwise (including a
single-part field) `v.value` if present; otherwise 0.0 with a warning. -/
theorem extraction_result_amended :
    (∀ (response hits : Json) (fields : List (String × Json)) (n : Rat),
      dictGet response "hits" (Json.obj []) = Except.ok hits →
      dictGet hits "total" (Json.obj []) = Except.ok (Json.obj fields) →
      lookupField fields "value" = some (Json.num n) →
      extract_count_result response = Except.ok n) ∧
    (∀ (response hits : Json) (n : Rat),
      dictGet response "hits" (Json.obj []) = Except.ok hits →
      dictGet hits "total" (Json.obj []) = Except.ok (Json.num n) →
      extract_count_result response = Except.ok n) ∧
    (∀ (response aggsTop : Json) (fields vfields : List (String × Json))
        (agg_field : String),
      dictGet response "aggregations" (Json.obj []) = Except.ok aggsTop →
      dictGet aggsTop "alert_agg" (Json.obj []) = Except.ok (Json.obj fields) →
      lookupField fields "values" = some (Json.obj vfields) →
      (pySplitDot agg_field).length ≥ 2 →
      extract_aggregation_result response agg_field =
        pyFloat ((lookupField vfields
          (joinDots ((pySplitDot agg_field).drop 1))).getD
            (Json.num 0))) ∧
    (∀ (response aggsTop : Json) (fields : List (String × Json))
        (agg_field : String) (v : Json),
      dictGet response "aggregations" (Json.obj []) = Except.ok aggsTop →
      dictGet aggsTop "alert_agg" (Json.obj []) = Except.ok (Json.obj fields) →
      (lookupField fields "values" = none ∨ (pySplitDot agg_field).length < 2) →
      lookupField fields "value" = some v →
      extract_aggregation_result response agg_field = pyFloat v) ∧
    (∀ (response aggsTop : Json) (fields : List (String × Json))
        (agg_field : String),
      dictGet response "aggregations" (Json.obj []) = Except.ok aggsTop →
      dictGet aggsTop "alert_agg" (Json.obj []) = Except.ok (Json.obj fields) →
      (lookupField fields "values" = none ∨ (pySplitDot agg_field).length < 2) →
      lookupField fields "value" = none →
      extract_aggregation_result response agg_field = Except.ok 0) := by
  refine ⟨?_, ?_, ?_, ?_, ?_⟩
  · intro response hits fields n h1 h2 h3
    simp [extract_count_result, h1, h2, h3, pyFloat]
  · intro response hits n h1 h2
    simp [extract_count_result, h1, h2, pyFloat]
  · intro response aggsTop fields vfields agg_field h1 h2 h3 h4
    simp [extract_aggregation_result, h1, h2, aggValueOf, h3, h4]
  · intro response aggsTop fields agg_field v h1 h2 h3 h4
    rcases h3 with h3 | h3
    · simp [extract_aggregation_result, h1, h2, aggValueOf, h3, h4]
    · cases hv : lookupField fields "values" with
      | none => simp [extract_aggregation_result, h1, h2, aggValueOf, hv, h4]
      | some vj =>
          simp [extract_aggregation_result, h1, h2, aggValueOf, hv, h4,
            Nat.not_le.mpr h3]
  · intro response aggsTop fields agg_field h1 h2 h3 h4
    rcases h3 with h3 | h3
    · simp [extract_aggregation_result, h1, h2, aggValueOf, h3, h4]
    · cases hv : lookupField fields "values" with
      | none => simp [extract_aggregation_result, h1, h2, aggValueOf, hv, h4]
      | some vj =>
          simp [extract_aggregation_result, h1, h2, aggValueOf, hv, h4,
            Nat.not_le.mpr h3]

/-- Witness for C6 (amended): the spec's own seed examples — a percentile
response keyed `values["95.0"]`, an `avg`-style `{value: 456.7}` response
with a two-part field, and the count path on both total shapes. -/
theorem extraction_result_amended_witness :
    extract_count_result (Json.obj [("hits", Json.obj
      [("total", Json.obj [("value", Json.num 150), ("relation", Json.str "eq")])])])
      = Except.ok 150 ∧
    extract_count_result (Json.obj [("hits", Json.obj [("total", Json.num 42)])])
      = Except.ok 42 ∧
    extract_aggregation_result (Json.obj [("aggregations", Json.obj
      [("alert_agg", Json.obj [("values", Json.obj [("95.0", Json.num 1250.5)])])])])
      "percentiles.95.0" = Except.ok 1250.5 ∧
    extract_aggregation_result (Json.obj [("aggregations", Json.obj
      [("alert_agg", Json.obj [("value", Json.num 456.7)])])])
      "latency.avg" = Except.ok 456.7 := by
  have h := extraction_result_amended
  refine ⟨?_, ?_, ?_, ?_⟩
  · exact h.1 _ (Json.obj [("total", Json.obj
      [("value", Json.num 150), ("relation", Json.str "eq")])])
      [("value", Json.num 150), ("relation", Json.str "eq")] 150 rfl rfl rfl
  · exact h.2.1 _ (Json.obj [("total", Json.num 42)]) 42 rfl rfl
  · have h3 := h.2.2.1 (Json.obj [("aggregations", Json.obj
      [("alert_agg", Json.obj [("values", Json.obj [("95.0", Json.num 1250.5)])])])])
      (Json.obj [("alert_agg", Json.obj
        [("values", Json.obj [("95.0", Json.num 1250.5)])])])
      [("values", Json.obj [("95.0", Json.num 1250.5)])]
      [("95.0", Json.num 1250.5)] "percentiles.95.0" rfl rfl rfl (by decide)
    rw [h3]
    rfl
  · exact h.2.2.2.1 (Json.obj [("aggregations", Json.obj
      [("alert_agg", Json.obj [("value", Json.num 456.7)])])])
      (Json.obj [("alert_agg", Json.obj [("value", Json.num 456.7)])])
      [("value", Json.num 456.7)] "latency.avg" (Json.num 456.7)
      rfl rfl (Or.inl rfl) rfl

/-- Field access along a key path, for stating body-shape properties. -/
def getPath (j : Json) : List String → Option Json
  | [] => some j
  | k :: ks =>
    match j with
    | Json.obj fields =>
        match lookupField fields k with
        | some v => getPath v ks
        | none => none
    | _ => none

/-- The synthesized range filter of `QueryExecutor._build_query_body`. -/
def time_range_filter (rule : AlertRule) : Json :=
  Json.obj [("range", Json.obj
    [(rule.query.time_field, Json.obj
      [("gte", Json.str rule.query.time_range.from_),
       ("lte", Json.str rule.query.time_range.to_)])])]

/-- `QueryExecutor._build_query_body`: the rule filter and the range
filter inside `bool.must`; `query_body["aggs"] = {"alert_agg": agg}`
appends the aggregation key when present. -/
def build_query_body (rule : AlertRule) : Json :=
  let baseFields := [("query", Json.obj [("bool", Json.obj
    [("must", Json.arr [rule.query.filter, time_range_filter rule])])])]
  Json.obj
    (match rule.query.aggregation with
     | some agg => baseFields ++ [("aggs", Json.obj [("alert_agg", agg)])]
     | none => baseFields)

/-- The search call issued by `QueryExecutor.execute`: comma-joined
indices, the built body, and the separate `size=0` request parameter. -/
structure SearchRequest where
  index : String
  body : Json
  size : Nat

/-- `QueryExecutor.execute`, up to the search call. -/
def execute_request (rule : AlertRule) : SearchRequest :=
  { index := String.intercalate "," rule.query.index
    body := build_query_body rule
    size := 0 }

/-- C7: for every rule the emitted body holds a `bool.must` array with
exactly the two children rule-filter and synthesized range filter, the
search is issued with `size = 0`, and a present aggregation is attached
under the fixed key `alert_agg` (absent otherwise). -/
theorem execute_request_shape (rule : AlertRule) :
    getPath (execute_request rule).body ["query", "bool", "must"] =
      some (Json.arr [rule.query.filter, time_range_filter rule]) ∧
    [rule.query.filter, time_range_filter rule].length = 2 ∧
    (execute_request rule).size = 0 ∧
    (∀ agg, rule.query.aggregation = some agg →
      getPath (execute_request rule).body ["aggs", "alert_agg"] = some agg) ∧
    (rule.query.aggregation = none →
      getPath (execute_request rule).body ["aggs"] = none) := by
  refine ⟨?_, rfl, rfl, ?_, ?_⟩
  · cases h : rule.query.aggregation <;>
      simp [execute_request, build_query_body, getPath, lookupField, h]
  · intro agg h
    simp [execute_request, build_query_body, getPath, lookupField, h]
  · intro h
    simp [execute_request, build_query_body, getPath, lookupField, h]

/-- A rule with a percentiles aggregation, for the C7 witness. -/
def sampleAggRule : AlertRule :=
  { sampleRule with
      name := "p95-latency"
      query := { index := ["traces-*"]
                 time_range := { from_ := "now-10m", to_ := "now" }
                 filter := Json.obj [("match_all", Json.obj [])]
                 aggregation := some (Json.obj [("percentiles", Json.obj
                   [("field", Json.str "duration_ms")])]) }
      condition := { operator := "gt", value := 1200,
                     aggregation_field := some "percentiles.95.0" } }

/-- Witness for C7: the body shape at a count rule (no `aggs` key) and at
an aggregation rule (`aggs.alert_agg` present). -/
theorem execute_request_shape_witness :
    getPath (execute_request sampleRule).body ["query", "bool", "must"] =
      some (Json.arr [sampleRule.query.filter, time_range_filter sampleRule]) ∧
    getPath (execute_request sampleRule).body ["aggs"] = none ∧
    getPath (execute_request sampleAggRule).body ["aggs", "alert_agg"] =
      some (Json.obj [("percentiles", Json.obj [("field", Json.str "duration_ms")])]) ∧
    (execute_request sampleAggRule).size = 0 := by
  have h1 := execute_request_shape sampleRule
  have h2 := execute_request_shape sampleAggRule
  exact ⟨h1.1, h1.2.2.2.2 rfl,
    h2.2.2.2.1 (Json.obj [("percentiles", Json.obj [("field", Json.str "duration_ms")])]) rfl,
    h2.2.2.1⟩

/-! ## Template renderer (`app/notifiers/template_renderer.py`)

`TEMPLATE_PATTERN = \x7b\x7balert\.([^\x7d]+)\x7d\x7d` scanning with
`re.sub`: at each position the scanner tries to match the literal opener,
then a non-empty run of non-closing-brace characters, then the double
closer; replacements are not rescanned; on no match the scan advances one
character.  Braces are written via `Char.ofNat` (123/125). -/

def rbraceChar : Char := Char.ofNat 125

def lbraceChar : Char := Char.ofNat 123

/-- The literal opener of the template pattern. -/
def alertOpenChars : List Char := "\x7b\x7balert.".toList

/-- The candidate `[^\x7d]+` group at the current position. -/
def alertBody (cs : List Char) : List Char :=
  (cs.drop 8).takeWhile (fun c => c != rbraceChar)

/-- What follows the candidate group. -/
def alertAfter (cs : List Char) : List Char :=
  (cs.drop 8).drop (alertBody cs).length

/-- One match attempt of `TEMPLATE_PATTERN` at the head of `cs`:
`some (group, remainder)` on success. -/
def tryMatchAlert (cs : List Char) : Option (List Char × List Char) :=
  if cs.take 8 = alertOpenChars then
    if alertBody cs ≠ [] ∧ (alertAfter cs).take 2 = [rbraceChar, rbraceChar] then
      some (alertBody cs, (alertAfter cs).drop 2)
    else none
  else none

theorem tryMatchAlert_some_length {cs : List Char} {pr : List Char × List Char}
    (h : tryMatchAlert cs = some pr) : pr.2.length < cs.length := by
  unfold tryMatchAlert at h
  split at h
  case isTrue htake =>
    split at h
    case isTrue hcond =>
      have hlen : (cs.take 8).length = 8 := by rw [htake]; rfl
      rw [List.length_take] at hlen
      have h8 : 8 ≤ cs.length := by omega
      cases h
      simp [alertAfter, List.length_drop]
      omega
    case isFalse => exact absurd h (by simp)
  case isFalse => exact absurd h (by simp)

/-- Python `str()` of a context value: faithful on the strings that occur
in notification contexts; the exact textual form Python gives numbers and
containers is abstracted here (no claim under verification depends on
it). -/
def pyStr : Json → String
  | Json.null => "None"
  | Json.bool b => if b then "True" else "False"
  | Json.num q => toString q
  | Json.str s => s
  | Json.arr _ => "<list>"
  | Json.obj _ => "<dict>"

/-- `TemplateRenderer._resolve_path`: walk the dot-notation parts through
nested dicts; a missing key or non-dict midpoint yields `None`. -/
def resolvePathAux : Json → List String → Option Json
  | current, [] => some current
  | current, part :: rest =>
    match current with
    | Json.obj fields =>
        match lookupField fields part with
        | some v => resolvePathAux v rest
        | none => none
    | _ => none

def resolvePath (context : List (String × Json)) (path : String) : Option Json :=
  resolvePathAux (Json.obj context) (pySplitDot path)

/-- The `replacer` closure of `_render_string`: `str(value)` when the
path resolves to a value that is not `None`, otherwise the whole matched
text `match.group(0)` stays. -/
def replacementFor (context : List (String × Json)) (pathChars : List Char) : List Char :=
  match resolvePath context (String.mk pathChars) with
  | some Json.null => alertOpenChars ++ pathChars ++ [rbraceChar, rbraceChar]
  | some v => (pyStr v).toList
  | none => alertOpenChars ++ pathChars ++ [rbraceChar, rbraceChar]

/-- The `re.sub` scan of `_render_string` over the characters. -/
def renderChars (context : List (String × Json)) : List Char → List Char
  | [] => []
  | c :: rest =>
    match h : tryMatchAlert (c :: rest) with
    | some pr => replacementFor context pr.1 ++ renderChars context pr.2
    | none => c :: renderChars context rest
termination_by cs => cs.length
decreasing_by
  · have := tryMatchAlert_some_length h
    simpa using this
  · simp

/-- `TemplateRenderer._render_string`. -/
def renderString (context : List (String × Json)) (text : String) : String :=
  String.mk (renderChars context text.toList)

/-! `TemplateRenderer.render`: structural recursion over dict values and
list items; strings get the substitution; other scalars pass through. -/

mutual

def render (context : List (String × Json)) : Json → Json
  | Json.str s => Json.str (renderString context s)
  | Json.obj fields => Json.obj (renderFields context fields)
  | Json.arr items => Json.arr (renderList context items)
  | other => other

def renderList (context : List (String × Json)) : List Json → List Json
  | [] => []
  | item :: rest => render context item :: renderList context rest

def renderFields (context : List (String × Json)) :
    List (String × Json) → List (String × Json)
  | [] => []
  | (k, v) :: rest => (k, render context v) :: renderFields context rest

end

/-- `true` when some position of the string matches `TEMPLATE_PATTERN`. -/
def hasAlertMatch : List Char → Bool
  | [] => false
  | c :: rest => (tryMatchAlert (c :: rest)).isSome || hasAlertMatch rest

/-! A value free of the template pattern occurrences, structurally. -/

mutual

def placeholderFreeJ : Json → Bool
  | Json.str s => !(hasAlertMatch s.toList)
  | Json.obj fields => placeholderFreeFields fields
  | Json.arr items => placeholderFreeList items
  | _ => true

def placeholderFreeList : List Json → Bool
  | [] => true
  | item :: rest => placeholderFreeJ item && placeholderFreeList rest

def placeholderFreeFields : List (String × Json) → Bool
  | [] => true
  | (_, v) :: rest => placeholderFreeJ v && placeholderFreeFields rest

end

theorem renderChars_cons_none {context : List (String × Json)} {c : Char}
    {rest : List Char} (h : tryMatchAlert (c :: rest) = none) :
    renderChars context (c :: rest) = c :: renderChars context rest := by
  rw [renderChars]
  split
  · next pr heq => rw [h] at heq; exact absurd heq (by simp)
  · rfl

theorem renderChars_cons_some {context : List (String × Json)} {c : Char}
    {rest body rem : List Char} (h : tryMatchAlert (c :: rest) = some (body, rem)) :
    renderChars context (c :: rest) =
      replacementFor context body ++ renderChars context rem := by
  rw [renderChars]
  split
  · next pr heq =>
      rw [h] at heq
      cases heq
      rfl
  · next heq => rw [h] at heq; exact absurd heq (by simp)

theorem renderChars_id (context : List (String × Json)) :
    ∀ (cs : List Char), hasAlertMatch cs = false → renderChars context cs = cs
  | [], _ => by rw [renderChars]
  | c :: rest, h => by
      simp only [hasAlertMatch, Bool.or_eq_false_iff] at h
      have hnone : tryMatchAlert (c :: rest) = none := by
        cases htm : tryMatchAlert (c :: rest)
        · rfl
        · rw [htm] at h; simp at h
      rw [renderChars_cons_none hnone, renderChars_id context rest h.2]

mutual

theorem render_fix (context : List (String × Json)) :
    ∀ (v : Json), placeholderFreeJ v = true → render context v = v
  | Json.null, _ => by simp [render]
  | Json.bool b, _ => by simp [render]
  | Json.num q, _ => by simp [render]
  | Json.str s, h => by
      simp only [placeholderFreeJ, Bool.not_eq_true'] at h
      have hid := renderChars_id context s.toList h
      simp only [render, renderString]
      rw [hid]
      rfl
  | Json.arr items, h => by
      simp only [placeholderFreeJ] at h
      simp [render, renderList_fix context items h]
  | Json.obj fields, h => by
      simp only [placeholderFreeJ] at h
      simp [render, renderFields_fix context fields h]

theorem renderList_fix (context : List (String × Json)) :
    ∀ (l : List Json), placeholderFreeList l = true → renderList context l = l
  | [], _ => by simp [renderList]
  | item :: rest, h => by
      simp only [placeholderFreeList, Bool.and_eq_true] at h
      simp [renderList, render_fix context item h.1, renderList_fix context rest h.2]

theorem renderFields_fix (context : List (String × Json)) :
    ∀ (l : List (String × Json)), placeholderFreeFields l = true →
      renderFields context l = l
  | [], _ => by simp [renderFields]
  | (k, v) :: rest, h => by
      simp only [placeholderFreeFields, Bool.and_eq_true] at h
      simp [renderFields, render_fix context v h.1, renderFields_fix context rest h.2]

end

/-- `"\x7b\x7balert." ++ path ++ "\x7d\x7d"` as a string. -/
def placeholderString (path : String) : String :=
  String.mk (alertOpenChars ++ path.toList ++ [rbraceChar, rbraceChar])

theorem takeWhile_nonbrace_append (l2 : List Char) :
    ∀ (body : List Char), (∀ c ∈ body, c ≠ rbraceChar) →
      (body ++ rbraceChar :: l2).takeWhile (fun c => c != rbraceChar) = body
  | [], _ => by simp [List.takeWhile_cons]
  | c :: rest, h => by
      have hc : c ≠ rbraceChar := h c (by simp)
      have hrest : ∀ x ∈ rest, x ≠ rbraceChar := fun x hx => h x (by simp [hx])
      simp [List.takeWhile_cons, hc, takeWhile_nonbrace_append l2 rest hrest]

theorem tryMatchAlert_placeholder (body : List Char) (hne : body ≠ [])
    (hnb : ∀ c ∈ body, c ≠ rbraceChar) :
    tryMatchAlert (alertOpenChars ++ body ++ [rbraceChar, rbraceChar]) =
      some (body, []) := by
  have hopen : alertOpenChars.length = 8 := rfl
  have hdrop : (alertOpenChars ++ body ++ [rbraceChar, rbraceChar]).drop 8 =
      body ++ [rbraceChar, rbraceChar] := by
    rw [List.append_assoc, ← hopen, List.drop_left]
  have htake : (alertOpenChars ++ body ++ [rbraceChar, rbraceChar]).take 8 =
      alertOpenChars := by
    rw [List.append_assoc, ← hopen, List.take_left]
  have hbody : alertBody (alertOpenChars ++ body ++ [rbraceChar, rbraceChar]) = body := by
    rw [alertBody, hdrop]
    exact takeWhile_nonbrace_append [rbraceChar] body hnb
  have hafter : alertAfter (alertOpenChars ++ body ++ [rbraceChar, rbraceChar]) =
      [rbraceChar, rbraceChar] := by
    rw [alertAfter, hdrop, hbody, List.drop_left]
  rw [tryMatchAlert, if_pos htake, hbody, hafter, if_pos ⟨hne, rfl⟩]
  rfl

theorem renderChars_nil (context : List (String × Json)) :
    renderChars context [] = [] := by
  rw [renderChars]

theorem renderChars_some {context : List (String × Json)} {cs body rem : List Char}
    (h : tryMatchAlert cs = some (body, rem)) :
    renderChars context cs = replacementFor context body ++ renderChars context rem := by
  cases cs with
  | nil =>
      rw [show tryMatchAlert [] = none from by decide] at h
      exact absurd h (by simp)
  | cons c rest => exact renderChars_cons_some h

theorem renderString_placeholder (context : List (String × Json)) (path : String)
    (hne : path.toList ≠ []) (hnb : ∀ c ∈ path.toList, c ≠ rbraceChar) :
    renderString context (placeholderString path) =
      String.mk (replacementFor context path.toList) := by
  have hm := tryMatchAlert_placeholder path.toList hne hnb
  rw [renderString, placeholderString]
  have htl : (String.mk (alertOpenChars ++ path.toList ++
      [rbraceChar, rbraceChar])).toList =
      alertOpenChars ++ path.toList ++ [rbraceChar, rbraceChar] := rfl
  rw [htl, renderChars_some hm, renderChars_nil, List.append_nil]

/-- C9: template rendering is structural — it recurses through mappings
and lists, substitutes inside string leaves, passes non-string scalars
through unchanged, keeps a placeholder literally when its path is missing
from the context (or resolves to `None`), replaces it by the string form
of the resolved value otherwise — and is a fixed point on every value
free of `\x7b\x7balert.…\x7d\x7d` occurrences. -/
theorem template_render_properties :
    (∀ (context : List (String × Json)) (v : Json),
        placeholderFreeJ v = true → render context v = v) ∧
    (∀ context q, render context (Json.num q) = Json.num q) ∧
    (∀ context b, render context (Json.bool b) = Json.bool b) ∧
    (∀ context, render context Json.null = Json.null) ∧
    (∀ context fields,
        render context (Json.obj fields) = Json.obj (renderFields context fields)) ∧
    (∀ context items,
        render context (Json.arr items) = Json.arr (renderList context items)) ∧
    (∀ (context : List (String × Json)) (path : String),
        path.toList ≠ [] → (∀ c ∈ path.toList, c ≠ rbraceChar) →
        resolvePath context path = none →
        renderString context (placeholderString path) = placeholderString path) ∧
    (∀ (context : List (String × Json)) (path : String) (v : Json),
        path.toList ≠ [] → (∀ c ∈ path.toList, c ≠ rbraceChar) →
        resolvePath context path = some v → v ≠ Json.null →
        renderString context (placeholderString path) = pyStr v) := by
  refine ⟨render_fix, fun _ _ => rfl, fun _ _ => rfl, fun _ => rfl,
    fun _ _ => rfl, fun _ _ => rfl, ?_, ?_⟩
  · intro context path hne hnb hmiss
    rw [renderString_placeholder context path hne hnb, replacementFor]
    have hms : String.mk path.toList = path := rfl
    rw [hms, hmiss]
    rfl
  · intro context path v hne hnb hsome hnull
    rw [renderString_placeholder context path hne hnb, replacementFor]
    have hms : String.mk path.toList = path := rfl
    rw [hms, hsome]
    cases v with
    | null => exact absurd rfl hnull
    | bool b => rfl
    | num q => rfl
    | str s => rfl
    | arr items => rfl
    | obj fields => rfl

/-- Witness for C9: a concrete context renders a present path to its
value, keeps a missing path literally, and fixes a placeholder-free
body. -/
theorem template_render_properties_witness :
    renderString [("name", Json.str "high-error-rate")]
      (placeholderString "name") = "high-error-rate" ∧
    renderString [("name", Json.str "high-error-rate")]
      (placeholderString "missing.path") = placeholderString "missing.path" ∧
    render [("name", Json.str "high-error-rate")]
      (Json.obj [("text", Json.str "all clear")]) =
      Json.obj [("text", Json.str "all clear")] := by
  have h := template_render_properties
  refine ⟨?_, ?_, ?_⟩
  · exact h.2.2.2.2.2.2.2 [("name", Json.str "high-error-rate")] "name"
      (Json.str "high-error-rate") (by decide) (by decide) rfl
      (fun hc => Json.noConfusion hc)
  · exact h.2.2.2.2.2.2.1 [("name", Json.str "high-error-rate")] "missing.path"
      (by decide) (by decide) rfl
  · exact h.1 [("name", Json.str "high-error-rate")]
      (Json.obj [("text", Json.str "all clear")]) rfl

/-! ## Rule loader (`app/services/rule_loader.py`)

`load_all_rules` clears the in-memory map, scans the `*.json` files of the
rules directory in sorted filename order, loads each file (JSON parse,
`${ENV_VAR}` resolution, pydantic validation) and stores it keyed by rule
name; a failing file is logged and skipped.  A missing directory returns
the cleared (empty) map.  Pydantic's `AlertRule.model_validate` is a
third-party collaborator and is abstracted as a `validate` function
argument; the environment is a lookup function, and the directory is
`none` (missing) or the list of its `*.json` files as filename/payload
pairs. -/

/-- The literal opener of `ENV_VAR_PATTERN = \$\x7b([^\x7d]+)\x7d`. -/
def envOpenChars : List Char := ['$', lbraceChar]

def envBody (cs : List Char) : List Char :=
  (cs.drop 2).takeWhile (fun c => c != rbraceChar)

def envAfter (cs : List Char) : List Char :=
  (cs.drop 2).drop (envBody cs).length

/-- One match attempt of `ENV_VAR_PATTERN` at the head of `cs`. -/
def tryMatchEnv (cs : List Char) : Option (List Char × List Char) :=
  if cs.take 2 = envOpenChars then
    if envBody cs ≠ [] ∧ (envAfter cs).take 1 = [rbraceChar] then
      some (envBody cs, (envAfter cs).drop 1)
    else none
  else none

theorem tryMatchEnv_some_length {cs : List Char} {pr : List Char × List Char}
    (h : tryMatchEnv cs = some pr) : pr.2.length < cs.length := by
  unfold tryMatchEnv at h
  split at h
  case isTrue htake =>
    split at h
    case isTrue hcond =>
      have hlen : (cs.take 2).length = 2 := by rw [htake]; rfl
      rw [List.length_take] at hlen
      have h2 : 2 ≤ cs.length := by omega
      cases h
      simp [envAfter, List.length_drop]
      omega
    case isFalse => exact absurd h (by simp)
  case isFalse => exact absurd h (by simp)

/-- The `re.sub` scan of `_resolve_env_vars` on a string:
`os.environ.get(name, match.group(0))`.  Structural on a fuel argument so
the scan evaluates definitionally; `tryMatchEnv_some_length` shows the
remainder shrinks every step, so fuel `cs.length` never runs out. -/
def envSubstGo (env : String → Option String) : Nat → List Char → List Char
  | 0, _ => []
  | _ + 1, [] => []
  | fuel + 1, c :: rest =>
    match tryMatchEnv (c :: rest) with
    | some pr =>
        (match env (String.mk pr.1) with
         | some val => val.toList
         | none => envOpenChars ++ pr.1 ++ [rbraceChar]) ++ envSubstGo env fuel pr.2
    | none => c :: envSubstGo env fuel rest

def envSubstChars (env : String → Option String) (cs : List Char) : List Char :=
  envSubstGo env cs.length cs

/-! `RuleLoader._resolve_env_vars`: recursive over dict values and list
items, substituting in string leaves, passing other values through. -/

mutual

def resolve_env_vars (env : String → Option String) : Json → Json
  | Json.str s => Json.str (String.mk (envSubstChars env s.toList))
  | Json.obj fields => Json.obj (resolveEnvFields env fields)
  | Json.arr items => Json.arr (resolveEnvList env items)
  | other => other

def resolveEnvList (env : String → Option String) : List Json → List Json
  | [] => []
  | item :: rest => resolve_env_vars env item :: resolveEnvList env rest

def resolveEnvFields (env : String → Option String) :
    List (String × Json) → List (String × Json)
  | [] => []
  | (k, v) :: rest => (k, resolve_env_vars env v) :: resolveEnvFields env rest

end

/-- What `load_all_rules` keeps of a validated rule. -/
structure LoadedRule where
  name : String
  enabled : Bool
  payload : Json

/-- `RuleLoader.load_rule` on an already JSON-parsed payload: resolve
environment placeholders, then validate (pydantic, abstracted); a JSON
parse error of the raw file text is a `validate` error here. -/
def load_rule (validate : Json → Except String LoadedRule)
    (env : String → Option String) (raw : Json) : Except String LoadedRule :=
  validate (resolve_env_vars env raw)

/-- Python dict assignment `self._rules[rule.name] = rule`: replace in
place, else append. -/
def insertRule : List (String × LoadedRule) → String → LoadedRule →
    List (String × LoadedRule)
  | [], n, r => [(n, r)]
  | (k, v) :: rest, n, r =>
      if k = n then (n, r) :: rest else (k, v) :: insertRule rest n r

/-- `self._rules.get(name)`. -/
def lookupRule (rules : List (String × LoadedRule)) (name : String) :
    Option LoadedRule :=
  (rules.find? (fun p => p.1 = name)).map (fun p => p.2)

/-- Lexicographic comparison by code points, Python string order. -/
def charListLe : List Char → List Char → Bool
  | [], _ => true
  | _ :: _, [] => false
  | a :: as, b :: bs => if a = b then charListLe as bs else decide (a < b)

def fileNameLe (a b : String) : Bool := charListLe a.toList b.toList

/-- Python `sorted()` over the glob results (stable; filenames are
unique within a directory). -/
def insertSortedFile (file : String × Json) :
    List (String × Json) → List (String × Json)
  | [] => [file]
  | g :: rest =>
      if fileNameLe file.1 g.1 then file :: g :: rest else g :: insertSortedFile file rest

def sortFiles : List (String × Json) → List (String × Json)
  | [] => []
  | f :: rest => insertSortedFile f (sortFiles rest)

/-- One iteration of the `load_all_rules` loop. -/
def loadStep (validate : Json → Except String LoadedRule)
    (env : String → Option String) (acc : List (String × LoadedRule))
    (file : String × Json) : List (String × LoadedRule) :=
  if file.1 = "README.md" then acc
  else
    match load_rule validate env file.2 with
    | Except.ok rule => insertRule acc rule.name rule
    | Except.error _ => acc

/-- `RuleLoader.load_all_rules`: clears `self._rules` (the previous map
is discarded), returns empty on a missing directory, otherwise folds the
loop over the sorted files. -/
def load_all_rules (validate : Json → Except String LoadedRule)
    (env : String → Option String) (dir : Option (List (String × Json)))
    (prev : List (String × LoadedRule)) : List (String × LoadedRule) :=
  match dir with
  | none => []
  | some files => (sortFiles files).foldl (loadStep validate env) []

/-- The well-parsed rules of a file list, in order, README sentinel
skipped — the reference point for the loader characterization. -/
def okRules (validate : Json → Except String LoadedRule)
    (env : String → Option String) (files : List (String × Json)) : List LoadedRule :=
  files.filterMap (fun file =>
    if file.1 = "README.md" then none
    else (load_rule validate env file.2).toOption)

theorem lookupRule_cons_eq {k : String} {v : LoadedRule}
    {rest : List (String × LoadedRule)} :
    lookupRule ((k, v) :: rest) k = some v := by
  simp [lookupRule, List.find?_cons]

theorem lookupRule_cons_ne {k name : String} {v : LoadedRule}
    {rest : List (String × LoadedRule)} (h : k ≠ name) :
    lookupRule ((k, v) :: rest) name = lookupRule rest name := by
  simp [lookupRule, List.find?_cons, h]

theorem lookupRule_insertRule (name n : String) (r : LoadedRule) :
    ∀ (acc : List (String × LoadedRule)),
      lookupRule (insertRule acc n r) name =
        if n = name then some r else lookupRule acc name
  | [] => by
      by_cases h : n = name <;>
        simp [insertRule, lookupRule, List.find?_cons, h]
  | (k, v) :: rest => by
      simp only [insertRule]
      by_cases hk : k = n
      · rw [if_pos hk]
        by_cases h : n = name
        · subst h
          rw [if_pos rfl]
          exact lookupRule_cons_eq
        · rw [if_neg h]
          have hkname : k ≠ name := by rw [hk]; exact h
          rw [lookupRule_cons_ne h, lookupRule_cons_ne hkname]
      · rw [if_neg hk]
        by_cases hkname : k = name
        · subst hkname
          have hn : ¬ (n = k) := fun hnk => hk hnk.symm
          rw [if_neg hn, lookupRule_cons_eq, lookupRule_cons_eq]
        · rw [lookupRule_cons_ne hkname,
            lookupRule_insertRule name n r rest]
          by_cases h : n = name
          · rw [if_pos h, if_pos h]
          · rw [if_neg h, if_neg h, lookupRule_cons_ne hkname]

theorem getLast?_cons_or {α : Type} (a : α) :
    ∀ (l : List α), (a :: l).getLast? = l.getLast?.or (some a)
  | [] => by simp
  | b :: t => by
      rw [List.getLast?_cons_cons, getLast?_cons_or b t]
      cases t.getLast? <;> simp [Option.or]

theorem lookupRule_fold (validate : Json → Except String LoadedRule)
    (env : String → Option String) (name : String) :
    ∀ (files : List (String × Json)) (acc : List (String × LoadedRule)),
      lookupRule (files.foldl (loadStep validate env) acc) name =
        (((okRules validate env files).filter
            (fun r => r.name = name)).getLast?).or (lookupRule acc name)
  | [], acc => by simp [okRules, Option.none_or]
  | file :: rest, acc => by
      rw [List.foldl_cons, lookupRule_fold validate env name rest]
      by_cases hr : file.1 = "README.md"
      · rw [show loadStep validate env acc file = acc from by simp [loadStep, hr],
          show okRules validate env (file :: rest) = okRules validate env rest from by
            simp [okRules, List.filterMap_cons, hr]]
      · cases hl : load_rule validate env file.2 with
        | error e =>
            rw [show loadStep validate env acc file = acc from by
                  simp [loadStep, hr, hl],
              show okRules validate env (file :: rest) = okRules validate env rest from by
                simp [okRules, List.filterMap_cons, hr, hl, Except.toOption]]
        | ok rule =>
            rw [show loadStep validate env acc file = insertRule acc rule.name rule from by
                  simp [loadStep, hr, hl],
              show okRules validate env (file :: rest) =
                  rule :: okRules validate env rest from by
                simp [okRules, List.filterMap_cons, hr, hl, Except.toOption]]
            rw [lookupRule_insertRule name rule.name rule acc]
            by_cases hn : rule.name = name
            · rw [if_pos hn]
              rw [show ((rule :: okRules validate env rest).filter
                    (fun r => r.name = name)) =
                  rule :: ((okRules validate env rest).filter
                    (fun r => r.name = name)) from by
                  simp [List.filter_cons, hn]]
              rw [getLast?_cons_or]
              cases ((okRules validate env rest).filter
                  (fun r => r.name = name)).getLast? <;> simp [Option.or]
            · rw [if_neg hn]
              rw [show ((rule :: okRules validate env rest).filter
                    (fun r => r.name = name)) =
                  ((okRules validate env rest).filter
                    (fun r => r.name = name)) from by
                  simp [List.filter_cons, hn]]

/-- C8: rule loading is idempotent and deterministic — re-running
`load_all_rules` over the unchanged directory and environment reproduces
the map (the previous in-memory map is cleared and never contributes); a
missing directory yields the empty map; and the loaded map sends each
rule name to the last successfully parsed-and-validated file carrying
that name in sorted filename order, so duplicate names resolve to the
last file and a failing file is skipped without affecting any other
file's rule. -/
theorem load_all_rules_behavior (validate : Json → Except String LoadedRule)
    (env : String → Option String) :
    (∀ (dir : Option (List (String × Json))) (prev : List (String × LoadedRule)),
      load_all_rules validate env dir (load_all_rules validate env dir prev) =
        load_all_rules validate env dir prev) ∧
    (∀ (dir : Option (List (String × Json)))
       (prev prev2 : List (String × LoadedRule)),
      load_all_rules validate env dir prev = load_all_rules validate env dir prev2) ∧
    (∀ prev, load_all_rules validate env none prev = []) ∧
    (∀ (files : List (String × Json)) (prev : List (String × LoadedRule))
       (name : String),
      lookupRule (load_all_rules validate env (some files) prev) name =
        ((okRules validate env (sortFiles files)).filter
          (fun r => r.name = name)).getLast?) := by
  refine ⟨?_, ?_, fun _ => rfl, ?_⟩
  · intro dir prev
    cases dir <;> rfl
  · intro dir prev prev2
    cases dir <;> rfl
  · intro files prev name
    rw [load_all_rules, lookupRule_fold validate env name (sortFiles files) []]
    simp [lookupRule]

/-- Validation stub for the C8 witness: accepts objects carrying string
`name` and boolean `enabled` fields. -/
def witnessValidate (j : Json) : Except String LoadedRule :=
  match j with
  | Json.obj fields =>
      match lookupField fields "name", lookupField fields "enabled" with
      | some (Json.str n), some (Json.bool e) =>
          Except.ok { name := n, enabled := e, payload := j }
      | _, _ => Except.error "validation error: name/enabled missing"
  | _ => Except.error "validation error: not an object"

/-- Witness for C8: two files define rule `dup` (the later filename
wins), one file fails validation without disturbing the rest, and the
missing directory gives the empty map. -/
theorem load_all_rules_behavior_witness :
    (lookupRule (load_all_rules witnessValidate (fun _ => none)
        (some [("20-dup.json", Json.obj [("name", Json.str "dup"),
                  ("enabled", Json.bool false)]),
               ("10-dup.json", Json.obj [("name", Json.str "dup"),
                  ("enabled", Json.bool true)]),
               ("15-bad.json", Json.str "not an object")]) [])
        "dup").map (fun r => r.enabled) = some false ∧
    load_all_rules witnessValidate (fun _ => none) none [] = [] := by
  have h := load_all_rules_behavior witnessValidate (fun _ => none)
  constructor
  · rw [h.2.2.2 [("20-dup.json", Json.obj [("name", Json.str "dup"),
        ("enabled", Json.bool false)]),
        ("10-dup.json", Json.obj [("name", Json.str "dup"),
          ("enabled", Json.bool true)]),
        ("15-bad.json", Json.str "not an object")] [] "dup"]
    rfl
  · exact h.2.2.1 []

end Vaultize
